import Mathlib

/-!
Shallow embedding of `src/src-tauri/src/lib.rs` (the-system backend shell).

The Rust code is glue over the Tauri framework: a `quit_app` command, free
functions `toggle_window_visibility`, `show_window`, `navigate_to_view`, a
global-shortcut handler, a tray-menu handler, a tray-icon handler, and a
setup hook that registers the Ctrl+Shift+A shortcut and builds the tray.

Framework-owned state (window visibility, emitted events, process exit,
registered shortcuts) is made explicit in `AppState`.  Fallible framework
calls whose results the code discards with `let _ =` are modelled through an
`Env` of success flags: when a flag is false the call fails and has no
effect, exactly as an `Err` ignored by `let _ =` would.
-/

namespace TheSystem

/-- Key codes (from the keyboard-types `Code` enum; only the variants the
program can distinguish matter, so a few representatives suffice). -/
inductive Code where
  | KeyA
  | KeyB
  | KeyQ
  deriving DecidableEq

/-- Keyboard modifier bitflags (`Modifiers` in tauri-plugin-global-shortcut). -/
structure Modifiers where
  control : Bool
  shift : Bool
  alt : Bool
  meta : Bool
  deriving DecidableEq

def Modifiers.CONTROL : Modifiers := ⟨true, false, false, false⟩

def Modifiers.SHIFT : Modifiers := ⟨false, true, false, false⟩

/-- Bitwise union of modifier flags (`Modifiers::CONTROL | Modifiers::SHIFT`). -/
def Modifiers.union (a b : Modifiers) : Modifiers :=
  ⟨a.control || b.control, a.shift || b.shift, a.alt || b.alt, a.meta || b.meta⟩

/-- A global shortcut: optional modifiers plus a key code. -/
structure Shortcut where
  mods : Option Modifiers
  key : Code
  deriving DecidableEq

/-- `Shortcut::new(mods, code)`. -/
def Shortcut.new (m : Option Modifiers) (k : Code) : Shortcut := ⟨m, k⟩

/-- The shortcut built in both the handler and setup:
`Shortcut::new(Some(Modifiers::CONTROL | Modifiers::SHIFT), Code::KeyA)`. -/
def ctrl_shift_a : Shortcut :=
  Shortcut.new (some (Modifiers.union Modifiers.CONTROL Modifiers.SHIFT)) Code.KeyA

/-- `ShortcutState` from tauri-plugin-global-shortcut. -/
inductive ShortcutState where
  | Pressed
  | Released
  deriving DecidableEq

/-- The mutable state of the webview window named "main" that the program
touches: visibility, minimized flag, focus. -/
structure WebviewWindow where
  visible : Bool
  minimized : Bool
  focused : Bool
  deriving DecidableEq

/-- Payload of an emitted frontend event: the program emits either a string
(`"timer"`) or the unit payload `()`. -/
inductive Payload where
  | str (s : String)
  | unit
  deriving DecidableEq

/-- An event emitted to the frontend via `app.emit(name, payload)`. -/
structure Event where
  name : String
  payload : Payload
  deriving DecidableEq

/-- Framework-owned application state visible to this program. -/
structure AppState where
  /-- `app.get_webview_window("main")`: `none` when the window is missing. -/
  mainWindow : Option WebviewWindow
  /-- Events emitted to the frontend, oldest first. -/
  emitted : List Event
  /-- `some c` once `app.exit(c)` has been called. -/
  exitCode : Option Nat
  /-- Globally registered shortcuts. -/
  registered : List Shortcut
  /-- Messages logged via `log::warn!`. -/
  warnings : List String
  deriving DecidableEq

/-- Success flags for fallible framework calls.  A false flag means the call
returns `Err` (discarded by `let _ =` in the source) and leaves state
unchanged. -/
structure Env where
  is_visible_ok : Bool
  hide_ok : Bool
  show_ok : Bool
  unminimize_ok : Bool
  set_focus_ok : Bool
  /-- `global_shortcut().register(...)` fails. -/
  register_fails : Bool
  /-- `cfg!(debug_assertions)` -/
  debug_assertions : Bool
  /-- attaching the log plugin succeeds (propagated with `?`) -/
  log_plugin_ok : Bool
  /-- `cfg!(target_os = "windows")` -/
  target_os_windows : Bool
  /-- `apply_acrylic` succeeds (`expect` panics otherwise) -/
  acrylic_ok : Bool
  /-- `MenuItem::with_id` calls succeed (propagated with `?`) -/
  menu_item_ok : Bool
  /-- `Menu::with_items` succeeds (propagated with `?`) -/
  menu_ok : Bool
  /-- `TrayIconBuilder::build` succeeds (propagated with `?`) -/
  tray_build_ok : Bool
  deriving DecidableEq

/-- All window-manipulation calls used by the handlers succeed. -/
def Env.windowCallsOk (env : Env) : Prop :=
  env.is_visible_ok = true ∧ env.hide_ok = true ∧ env.show_ok = true ∧
    env.unminimize_ok = true ∧ env.set_focus_ok = true

instance (env : Env) : Decidable env.windowCallsOk := by
  unfold Env.windowCallsOk; infer_instance

/-- `window.hide()`: best-effort, no effect when the call fails. -/
def WebviewWindow.hideCall (env : Env) (w : WebviewWindow) : WebviewWindow :=
  if env.hide_ok then { w with visible := false } else w

/-- `window.show()`: best-effort. -/
def WebviewWindow.showCall (env : Env) (w : WebviewWindow) : WebviewWindow :=
  if env.show_ok then { w with visible := true } else w

/-- `window.unminimize()`: best-effort. -/
def WebviewWindow.unminimizeCall (env : Env) (w : WebviewWindow) : WebviewWindow :=
  if env.unminimize_ok then { w with minimized := false } else w

/-- `window.set_focus()`: best-effort. -/
def WebviewWindow.setFocusCall (env : Env) (w : WebviewWindow) : WebviewWindow :=
  if env.set_focus_ok then { w with focused := true } else w

/-- `toggle_window_visibility`: if the main window exists and `is_visible()`
returns `Ok(visible)`, hide when visible, otherwise show + unminimize +
set_focus; all results discarded with `let _ =`. -/
def toggle_window_visibility (env : Env) (app : AppState) : AppState :=
  match app.mainWindow with
  | none => app
  | some window =>
    if env.is_visible_ok then
      if window.visible then
        { app with mainWindow := some (window.hideCall env) }
      else
        let shown := ((window.showCall env).unminimizeCall env).setFocusCall env
        { app with mainWindow := some shown }
    else app

/-- `show_window`: if the main window exists, show + unminimize + set_focus
(results discarded).  Note: it does not query visibility. -/
def show_window (env : Env) (app : AppState) : AppState :=
  match app.mainWindow with
  | none => app
  | some window =>
    let shown := ((window.showCall env).unminimizeCall env).setFocusCall env
    { app with mainWindow := some shown }

/-- `app.emit(name, payload)`: append the event to the emitted stream. -/
def emit (app : AppState) (name : String) (p : Payload) : AppState :=
  { app with emitted := app.emitted ++ [⟨name, p⟩] }

/-- `navigate_to_view`: show the window, then emit `navigate-to-view` with the
view name as string payload. -/
def navigate_to_view (env : Env) (app : AppState) (view : String) : AppState :=
  emit (show_window env app) "navigate-to-view" (Payload.str view)

/-- `quit_app` command: `app.exit(0)`. -/
def quit_app (app : AppState) : AppState :=
  { app with exitCode := some 0 }

/-- The global-shortcut plugin handler closure: toggle only when the shortcut
equals Ctrl+Shift+A and the event state is `Pressed`. -/
def shortcut_handler (env : Env) (app : AppState)
    (shortcut : Shortcut) (state : ShortcutState) : AppState :=
  if shortcut = ctrl_shift_a ∧ state = ShortcutState.Pressed then
    toggle_window_visibility env app
  else app

/-- The `on_menu_event` closure: dispatch on the menu item id string. -/
def on_menu_event (env : Env) (app : AppState) (id : String) : AppState :=
  if id = "show" then
    show_window env app
  else if id = "timer" then
    navigate_to_view env app "timer"
  else if id = "quit" then
    emit (show_window env app) "quit-requested" Payload.unit
  else
    app

/-- `MouseButton` from the tray API. -/
inductive MouseButton where
  | Left
  | Right
  | Middle
  deriving DecidableEq

/-- `MouseButtonState` from the tray API. -/
inductive MouseButtonState where
  | Up
  | Down
  deriving DecidableEq

/-- `TrayIconEvent` variants the handler can receive. -/
inductive TrayIconEvent where
  | Click (button : MouseButton) (buttonState : MouseButtonState)
  | DoubleClick (button : MouseButton)
  | Enter
  | Move
  | Leave
  deriving DecidableEq

/-- The `on_tray_icon_event` closure: show the window exactly on
`Click { button: Left, button_state: Up, .. }`. -/
def on_tray_icon_event (env : Env) (app : AppState) (event : TrayIconEvent) :
    AppState :=
  match event with
  | TrayIconEvent.Click MouseButton.Left MouseButtonState.Up => show_window env app
  | _ => app

/-- A tray menu item as built by `MenuItem::with_id`. -/
structure MenuItemDef where
  id : String
  label : String
  enabled : Bool
  deriving DecidableEq

/-- Static tray icon configuration produced by `TrayIconBuilder`. -/
structure TrayConfig where
  menu : List MenuItemDef
  showMenuOnLeftClick : Bool
  tooltip : String
  deriving DecidableEq

/-- The tray configuration built in setup: Show / Timer / Quit menu,
`show_menu_on_left_click(false)`, tooltip "ARISE". -/
def trayConfig : TrayConfig :=
  { menu := [⟨"show", "Show", true⟩, ⟨"timer", "Timer", true⟩,
             ⟨"quit", "Quit", true⟩]
    showMenuOnLeftClick := false
    tooltip := "ARISE" }

/-- Result of a successful setup run. -/
structure SetupResult where
  state : AppState
  tray : TrayConfig
  deriving DecidableEq

/-- The warning message logged when shortcut registration fails. -/
def registerWarning : String := "Failed to register global shortcut Ctrl+Shift+A"

/-- The `.setup(...)` closure.  Steps, in source order:
`unregister_all()` (result discarded), `register(ctrl_shift_a)` with a
`log::warn!` on error, debug-only log plugin (`?`), `get_webview_window`
`unwrap`, Windows-only acrylic (`expect`), menu items and tray build (`?`).
Panics (`unwrap`/`expect`) and propagated errors are both modelled as
`Except.error` with distinguishing messages. -/
def setup (env : Env) (app : AppState) : Except String SetupResult :=
  let app1 := { app with registered := [] }
  let app2 :=
    if env.register_fails then
      { app1 with warnings := app1.warnings ++ [registerWarning] }
    else
      { app1 with registered := app1.registered ++ [ctrl_shift_a] }
  if env.debug_assertions && !env.log_plugin_ok then
    Except.error "log plugin error"
  else
    match app2.mainWindow with
    | none => Except.error "panic: unwrap on missing main window"
    | some _ =>
      if env.target_os_windows && !env.acrylic_ok then
        Except.error "panic: Failed to apply acrylic effect"
      else if !env.menu_item_ok then
        Except.error "menu item error"
      else if !env.menu_ok then
        Except.error "menu error"
      else if !env.tray_build_ok then
        Except.error "tray build error"
      else
        Except.ok ⟨app2, trayConfig⟩

/-- The externally triggered entry points into the backend: a global-shortcut
event, a tray-menu click, a tray-icon event, or the `quit_app` command. -/
inductive Input where
  | shortcutEvent (s : Shortcut) (st : ShortcutState)
  | menuEvent (id : String)
  | trayEvent (e : TrayIconEvent)
  | quitCommand
  deriving DecidableEq

/-- One handler execution. -/
def step (env : Env) (app : AppState) : Input → AppState
  | Input.shortcutEvent s st => shortcut_handler env app s st
  | Input.menuEvent id => on_menu_event env app id
  | Input.trayEvent e => on_tray_icon_event env app e
  | Input.quitCommand => quit_app app

/-! Concrete fixtures used by witnesses and counterexamples. -/

/-- An environment in which every framework call succeeds. -/
def envAllOk : Env :=
  { is_visible_ok := true, hide_ok := true, show_ok := true,
    unminimize_ok := true, set_focus_ok := true, register_fails := false,
    debug_assertions := false, log_plugin_ok := true,
    target_os_windows := false, acrylic_ok := true, menu_item_ok := true,
    menu_ok := true, tray_build_ok := true }

/-- Like `envAllOk` but `window.is_visible()` returns `Err`. -/
def envNoVisQuery : Env := { envAllOk with is_visible_ok := false }

/-- Like `envAllOk` but shortcut registration fails. -/
def envRegFail : Env := { envAllOk with register_fails := true }

/-- A hidden, minimized, unfocused main window. -/
def hiddenWindow : WebviewWindow :=
  { visible := false, minimized := true, focused := false }

/-- The window after show + unminimize + set_focus all succeed. -/
def shownWindow : WebviewWindow :=
  { visible := true, minimized := false, focused := true }

/-- Fresh app state whose main window is `hiddenWindow`. -/
def appHidden : AppState :=
  { mainWindow := some hiddenWindow, emitted := [], exitCode := none,
    registered := [], warnings := [] }

/-- App state with no window named "main". -/
def appNoWindow : AppState := { appHidden with mainWindow := none }

/-! Helper lemmas about the embedding, shared across claims. -/

/-- With all window calls succeeding, show + unminimize + set_focus yields the
fully shown window. -/
theorem shownWindow_eq (env : Env) (w : WebviewWindow) (h : env.windowCallsOk) :
    ((w.showCall env).unminimizeCall env).setFocusCall env = shownWindow := by
  obtain ⟨-, -, h3, h4, h5⟩ := h
  simp [WebviewWindow.showCall, WebviewWindow.unminimizeCall,
    WebviewWindow.setFocusCall, h3, h4, h5, shownWindow]

/-- `show_window` never touches the emitted-event stream. -/
theorem show_window_emitted (env : Env) (app : AppState) :
    (show_window env app).emitted = app.emitted := by
  cases h : app.mainWindow <;> simp [show_window, h]

/-- `toggle_window_visibility` never touches the emitted-event stream. -/
theorem toggle_emitted (env : Env) (app : AppState) :
    (toggle_window_visibility env app).emitted = app.emitted := by
  cases h : app.mainWindow with
  | none => simp [toggle_window_visibility, h]
  | some w =>
    by_cases hv : env.is_visible_ok = true <;>
      by_cases hw : w.visible = true <;>
        simp [toggle_window_visibility, h, hv, hw]

/-- `show_window` never calls `app.exit`. -/
theorem show_window_exitCode (env : Env) (app : AppState) :
    (show_window env app).exitCode = app.exitCode := by
  cases h : app.mainWindow <;> simp [show_window, h]

/-- `toggle_window_visibility` never calls `app.exit`. -/
theorem toggle_exitCode (env : Env) (app : AppState) :
    (toggle_window_visibility env app).exitCode = app.exitCode := by
  cases h : app.mainWindow with
  | none => simp [toggle_window_visibility, h]
  | some w =>
    by_cases hv : env.is_visible_ok = true <;>
      by_cases hw : w.visible = true <;>
        simp [toggle_window_visibility, h, hv, hw]

/-- `show_window` on an existing window with succeeding calls shows,
unminimizes and focuses it, and changes nothing else. -/
theorem show_window_shows (env : Env) (app : AppState) (w : WebviewWindow)
    (hw : app.mainWindow = some w) (henv : env.windowCallsOk) :
    show_window env app = { app with mainWindow := some shownWindow } := by
  simp [show_window, hw, shownWindow_eq env w henv]

/-- `on_menu_event` never calls `app.exit`, whatever the id. -/
theorem on_menu_event_exitCode (env : Env) (app : AppState) (id : String) :
    (on_menu_event env app id).exitCode = app.exitCode := by
  unfold on_menu_event
  split
  · exact show_window_exitCode env app
  · split
    · simp [navigate_to_view, emit, show_window_exitCode]
    · split
      · simp [emit, show_window_exitCode]
      · rfl

/-- The shortcut handler never touches the emitted-event stream. -/
theorem shortcut_handler_emitted (env : Env) (app : AppState) (s : Shortcut)
    (st : ShortcutState) :
    (shortcut_handler env app s st).emitted = app.emitted := by
  unfold shortcut_handler
  split
  · exact toggle_emitted env app
  · rfl

/-- The tray-icon handler never touches the emitted-event stream. -/
theorem on_tray_icon_event_emitted (env : Env) (app : AppState)
    (e : TrayIconEvent) :
    (on_tray_icon_event env app e).emitted = app.emitted := by
  cases e with
  | Click b bs =>
    cases b <;> cases bs <;> simp [on_tray_icon_event, show_window_emitted]
  | DoubleClick b => rfl
  | Enter => rfl
  | Move => rfl
  | Leave => rfl

/-- The menu handler appends at most one event: nothing, the
`navigate-to-view "timer"` event, or the `quit-requested` event. -/
theorem on_menu_event_emitted (env : Env) (app : AppState) (id : String) :
    (on_menu_event env app id).emitted = app.emitted ∨
    (on_menu_event env app id).emitted =
      app.emitted ++ [⟨"navigate-to-view", Payload.str "timer"⟩] ∨
    (on_menu_event env app id).emitted =
      app.emitted ++ [⟨"quit-requested", Payload.unit⟩] := by
  unfold on_menu_event
  split
  · exact Or.inl (show_window_emitted env app)
  · split
    · exact Or.inr (Or.inl (by simp [navigate_to_view, emit, show_window_emitted]))
    · split
      · exact Or.inr (Or.inr (by simp [emit, show_window_emitted]))
      · exact Or.inl rfl

/-! Claim theorems. -/

/-- C1: a press of the Ctrl+Shift+A global shortcut makes the handler toggle
the main window's visibility: if the window is visible it is hidden, and if it
is hidden it is shown, unminimized, and focused (assuming the window exists
and the framework window calls succeed). -/
theorem C1_shortcut_press_toggles (env : Env) (app : AppState)
    (w : WebviewWindow) (hw : app.mainWindow = some w)
    (henv : env.windowCallsOk) :
    (shortcut_handler env app ctrl_shift_a ShortcutState.Pressed).mainWindow =
      some (if w.visible then { w with visible := false } else shownWindow) := by
  have hs := shownWindow_eq env w henv
  obtain ⟨h1, h2, -, -, -⟩ := henv
  by_cases hv : w.visible = true <;>
    simp [shortcut_handler, toggle_window_visibility, hw, h1, hv,
      WebviewWindow.hideCall, h2, hs]

/-- Witness for C1: pressing Ctrl+Shift+A on a hidden window shows,
unminimizes and focuses it. -/
theorem C1_witness :
    (shortcut_handler envAllOk appHidden ctrl_shift_a
        ShortcutState.Pressed).mainWindow = some shownWindow := by
  have h := C1_shortcut_press_toggles envAllOk appHidden hiddenWindow rfl
    (by decide)
  simpa [hiddenWindow] using h

/-- C4: the `quit_app` command terminates the process with exit code 0. -/
theorem C4_quit_app_exits (app : AppState) :
    (quit_app app).exitCode = some 0 := rfl

/-- C8 as stated is false: when the main window exists but the visibility
query fails, `show_window` is not a no-op — on a hidden window it still
shows, unminimizes and focuses it. -/
theorem C8_counterexample :
    show_window envNoVisQuery appHidden ≠ appHidden ∧
    (show_window envNoVisQuery appHidden).mainWindow = some shownWindow := by
  constructor
  · decide
  · decide

/-- C8 amended: if the main window does not exist, both `show_window` and
`toggle_window_visibility` are total no-ops; if the visibility query fails,
`toggle_window_visibility` is a no-op (but `show_window`, which never queries
visibility, is not constrained by that failure). -/
theorem C8_amended_noops (env : Env) (app : AppState) :
    (app.mainWindow = none →
      show_window env app = app ∧ toggle_window_visibility env app = app) ∧
    (env.is_visible_ok = false → toggle_window_visibility env app = app) := by
  constructor
  · intro h
    constructor <;> simp [show_window, toggle_window_visibility, h]
  · intro h
    cases hm : app.mainWindow <;>
      simp [toggle_window_visibility, hm, h]

/-- Witness for the amended C8: with no main window both functions do
nothing, and with a failing visibility query toggling does nothing. -/
theorem C8_witness :
    (show_window envAllOk appNoWindow = appNoWindow ∧
      toggle_window_visibility envAllOk appNoWindow = appNoWindow) ∧
    toggle_window_visibility envNoVisQuery appHidden = appHidden :=
  ⟨(C8_amended_noops envAllOk appNoWindow).1 rfl,
    (C8_amended_noops envNoVisQuery appHidden).2 rfl⟩

/-- C9: the global-shortcut handler changes state only for Ctrl+Shift+A in
the Pressed state; any other shortcut, or the Released state, leaves the
state unchanged, so one press-and-release cycle toggles exactly once. -/
theorem C9_handler_frame (env : Env) (app : AppState) (s : Shortcut)
    (st : ShortcutState) :
    (¬ (s = ctrl_shift_a ∧ st = ShortcutState.Pressed) →
      shortcut_handler env app s st = app) ∧
    shortcut_handler env
        (shortcut_handler env app ctrl_shift_a ShortcutState.Pressed)
        ctrl_shift_a ShortcutState.Released =
      toggle_window_visibility env app := by
  constructor
  · intro h
    simp [shortcut_handler, h]
  · simp [shortcut_handler]

/-- Witness for C9: a Ctrl+Shift+A release, and a press of a different
shortcut, both leave the state unchanged, while a press-and-release cycle
equals one toggle. -/
theorem C9_witness :
    shortcut_handler envAllOk appHidden ctrl_shift_a
        ShortcutState.Released = appHidden ∧
    shortcut_handler envAllOk appHidden (Shortcut.new none Code.KeyB)
        ShortcutState.Pressed = appHidden ∧
    shortcut_handler envAllOk
        (shortcut_handler envAllOk appHidden ctrl_shift_a
          ShortcutState.Pressed) ctrl_shift_a ShortcutState.Released =
      toggle_window_visibility envAllOk appHidden :=
  ⟨(C9_handler_frame envAllOk appHidden ctrl_shift_a
      ShortcutState.Released).1 (by decide),
    (C9_handler_frame envAllOk appHidden (Shortcut.new none Code.KeyB)
      ShortcutState.Pressed).1 (by decide),
    (C9_handler_frame envAllOk appHidden ctrl_shift_a
      ShortcutState.Released).2⟩

/-- C10: when the main window exists and the framework calls succeed,
applying `toggle_window_visibility` twice returns the visibility flag to its
original value. -/
theorem C10_toggle_involution (env : Env) (app : AppState)
    (w : WebviewWindow) (hw : app.mainWindow = some w)
    (henv : env.windowCallsOk) :
    (toggle_window_visibility env
        (toggle_window_visibility env app)).mainWindow.map
      WebviewWindow.visible = some w.visible := by
  obtain ⟨h1, h2, h3, h4, h5⟩ := henv
  by_cases hv : w.visible = true <;>
    simp [toggle_window_visibility, hw, h1, h2, h3, h4, h5, hv,
      WebviewWindow.hideCall, WebviewWindow.showCall,
      WebviewWindow.unminimizeCall, WebviewWindow.setFocusCall]

/-- Witness for C10: toggling twice from a hidden window ends hidden. -/
theorem C10_witness :
    (toggle_window_visibility envAllOk
        (toggle_window_visibility envAllOk appHidden)).mainWindow.map
      WebviewWindow.visible = some false := by
  have h := C10_toggle_involution envAllOk appHidden hiddenWindow rfl
    (by decide)
  simpa [hiddenWindow] using h

/-- C2: clicking the tray menu item with id "timer" shows the main window
and emits exactly one `navigate-to-view` event with string payload "timer"
(the window part assuming the window exists and the calls succeed). -/
theorem C2_timer_menu (env : Env) (app : AppState) (w : WebviewWindow)
    (hw : app.mainWindow = some w) (henv : env.windowCallsOk) :
    (on_menu_event env app "timer").mainWindow = some shownWindow ∧
    (on_menu_event env app "timer").emitted =
      app.emitted ++ [⟨"navigate-to-view", Payload.str "timer"⟩] := by
  have hs := show_window_shows env app w hw henv
  constructor <;> simp [on_menu_event, navigate_to_view, emit, hs]

/-- Witness for C2 on a concrete hidden-window state. -/
theorem C2_witness :
    (on_menu_event envAllOk appHidden "timer").mainWindow =
      some shownWindow ∧
    (on_menu_event envAllOk appHidden "timer").emitted =
      appHidden.emitted ++ [⟨"navigate-to-view", Payload.str "timer"⟩] :=
  C2_timer_menu envAllOk appHidden hiddenWindow rfl (by decide)

/-- C3: clicking the tray menu item with id "quit" shows the main window and
emits a `quit-requested` event with unit payload, leaving the exit code
untouched; the process exit code is set only by the `quit_app` command. -/
theorem C3_quit_menu (env : Env) (app : AppState) (w : WebviewWindow)
    (hw : app.mainWindow = some w) (henv : env.windowCallsOk) :
    (on_menu_event env app "quit").mainWindow = some shownWindow ∧
    (on_menu_event env app "quit").emitted =
      app.emitted ++ [⟨"quit-requested", Payload.unit⟩] ∧
    (on_menu_event env app "quit").exitCode = app.exitCode ∧
    (∀ i : Input, i ≠ Input.quitCommand →
      (step env app i).exitCode = app.exitCode) ∧
    (step env app Input.quitCommand).exitCode = some 0 := by
  have hs := show_window_shows env app w hw henv
  refine ⟨?_, ?_, on_menu_event_exitCode env app "quit", ?_, rfl⟩
  · simp [on_menu_event, emit, hs]
  · simp [on_menu_event, emit, hs]
  · intro i hi
    cases i with
    | shortcutEvent s st =>
      simp only [step]
      unfold shortcut_handler
      split
      · exact toggle_exitCode env app
      · rfl
    | menuEvent id => exact on_menu_event_exitCode env app id
    | trayEvent e =>
      cases e with
      | Click b bs =>
        cases b <;> cases bs <;>
          simp [step, on_tray_icon_event, show_window_exitCode]
      | DoubleClick b => rfl
      | Enter => rfl
      | Move => rfl
      | Leave => rfl
    | quitCommand => exact absurd rfl hi

/-- Witness for C3 on a concrete hidden-window state. -/
theorem C3_witness :
    (on_menu_event envAllOk appHidden "quit").mainWindow =
      some shownWindow ∧
    (on_menu_event envAllOk appHidden "quit").emitted =
      appHidden.emitted ++ [⟨"quit-requested", Payload.unit⟩] ∧
    (on_menu_event envAllOk appHidden "quit").exitCode =
      appHidden.exitCode ∧
    (∀ i : Input, i ≠ Input.quitCommand →
      (step envAllOk appHidden i).exitCode = appHidden.exitCode) ∧
    (step envAllOk appHidden Input.quitCommand).exitCode = some 0 :=
  C3_quit_menu envAllOk appHidden hiddenWindow rfl (by decide)

/-- C5: setup clears all previously registered shortcuts, then registers
Ctrl+Shift+A; when registration fails a warning is logged and setup still
returns successfully (given the other setup steps do not fail). -/
theorem C5_setup_best_effort (env : Env) (app : AppState) (w : WebviewWindow)
    (hw : app.mainWindow = some w)
    (hlog : env.debug_assertions = true → env.log_plugin_ok = true)
    (hacr : env.target_os_windows = true → env.acrylic_ok = true)
    (hmi : env.menu_item_ok = true) (hm : env.menu_ok = true)
    (ht : env.tray_build_ok = true) :
    ∃ r : SetupResult, setup env app = Except.ok r ∧
      r.state.registered =
        (if env.register_fails then [] else [ctrl_shift_a]) ∧
      r.state.warnings =
        (if env.register_fails then app.warnings ++ [registerWarning]
         else app.warnings) ∧
      r.tray = trayConfig := by
  have h1 : (env.debug_assertions && !env.log_plugin_ok) = false := by
    cases hd : env.debug_assertions with
    | false => simp
    | true => simp [hlog hd]
  have h2 : (env.target_os_windows && !env.acrylic_ok) = false := by
    cases hd : env.target_os_windows with
    | false => simp
    | true => simp [hacr hd]
  by_cases hr : env.register_fails = true
  · refine ⟨⟨{ app with registered := [], warnings := app.warnings ++ [registerWarning] }, trayConfig⟩, ?_, by simp [hr], by simp [hr], rfl⟩
    simp [setup, h1, h2, hmi, hm, ht, hw, hr]
  · rw [Bool.not_eq_true] at hr
    refine ⟨⟨{ app with registered := [ctrl_shift_a] }, trayConfig⟩, ?_, by simp [hr], by simp [hr], rfl⟩
    simp [setup, h1, h2, hmi, hm, ht, hw, hr]

/-- Witness for C5: with failing registration and everything else healthy,
setup succeeds, ends with no registered shortcut, and logs the warning. -/
theorem C5_witness :
    ∃ r : SetupResult, setup envRegFail appHidden = Except.ok r ∧
      r.state.registered =
        (if envRegFail.register_fails then [] else [ctrl_shift_a]) ∧
      r.state.warnings =
        (if envRegFail.register_fails then
          appHidden.warnings ++ [registerWarning]
         else appHidden.warnings) ∧
      r.tray = trayConfig :=
  C5_setup_best_effort envRegFail appHidden hiddenWindow rfl (by decide)
    (by decide) (by decide) (by decide) (by decide)

/-- C6 as stated is false: a left-click event whose button state is Down is
handled as a no-op, so the hidden window is not shown. -/
theorem C6_counterexample :
    on_tray_icon_event envAllOk appHidden
        (TrayIconEvent.Click MouseButton.Left MouseButtonState.Down) =
      appHidden ∧
    appHidden.mainWindow.map WebviewWindow.visible = some false :=
  ⟨rfl, rfl⟩

/-- C6 amended: a left-click event with button state Up shows the main window
(show + unminimize + focus); every other tray event — including left-click
with button state Down and clicks with other buttons — leaves the state
unchanged; and the tray is configured with show-menu-on-left-click
disabled. -/
theorem C6_amended_left_click_up (env : Env) (app : AppState)
    (w : WebviewWindow) (hw : app.mainWindow = some w)
    (henv : env.windowCallsOk) :
    (on_tray_icon_event env app
        (TrayIconEvent.Click MouseButton.Left MouseButtonState.Up)).mainWindow =
      some shownWindow ∧
    (∀ e : TrayIconEvent,
      e ≠ TrayIconEvent.Click MouseButton.Left MouseButtonState.Up →
        on_tray_icon_event env app e = app) ∧
    trayConfig.showMenuOnLeftClick = false := by
  refine ⟨?_, ?_, rfl⟩
  · simp [on_tray_icon_event, show_window_shows env app w hw henv]
  · intro e he
    cases e with
    | Click b bs =>
      cases b <;> cases bs <;> first | exact absurd rfl he | rfl
    | DoubleClick b => rfl
    | Enter => rfl
    | Move => rfl
    | Leave => rfl

/-- Witness for the amended C6: a Left/Up click shows the hidden window and a
Right/Up click changes nothing. -/
theorem C6_witness :
    (on_tray_icon_event envAllOk appHidden
        (TrayIconEvent.Click MouseButton.Left MouseButtonState.Up)).mainWindow =
      some shownWindow ∧
    on_tray_icon_event envAllOk appHidden
        (TrayIconEvent.Click MouseButton.Right MouseButtonState.Up) =
      appHidden :=
  ⟨(C6_amended_left_click_up envAllOk appHidden hiddenWindow rfl
      (by decide)).1,
    (C6_amended_left_click_up envAllOk appHidden hiddenWindow rfl
      (by decide)).2.1
      (TrayIconEvent.Click MouseButton.Right MouseButtonState.Up)
      (by decide)⟩

/-- C7: in any handler execution, every event in the emitted stream was
either already there or is a `navigate-to-view` event with a string payload
or a `quit-requested` event with the unit payload. -/
theorem C7_emitted_events (env : Env) (app : AppState) (i : Input) (e : Event)
    (he : e ∈ (step env app i).emitted) :
    e ∈ app.emitted ∨
      (e.name = "navigate-to-view" ∧ ∃ s, e.payload = Payload.str s) ∨
      (e.name = "quit-requested" ∧ e.payload = Payload.unit) := by
  cases i with
  | shortcutEvent s st =>
    rw [step, shortcut_handler_emitted] at he
    exact Or.inl he
  | menuEvent id =>
    rcases on_menu_event_emitted env app id with h | h | h
    · rw [step, h] at he
      exact Or.inl he
    · rw [step, h, List.mem_append] at he
      rcases he with he | he
      · exact Or.inl he
      · simp only [List.mem_singleton] at he
        subst he
        exact Or.inr (Or.inl ⟨rfl, "timer", rfl⟩)
    · rw [step, h, List.mem_append] at he
      rcases he with he | he
      · exact Or.inl he
      · simp only [List.mem_singleton] at he
        subst he
        exact Or.inr (Or.inr ⟨rfl, rfl⟩)
  | trayEvent te =>
    rw [step, on_tray_icon_event_emitted] at he
    exact Or.inl he
  | quitCommand =>
    exact Or.inl he

/-- Witness for C7: the event the "quit" menu click appends is the
`quit-requested` event with unit payload. -/
theorem C7_witness :
    (⟨"quit-requested", Payload.unit⟩ : Event) ∈ appHidden.emitted ∨
      ((⟨"quit-requested", Payload.unit⟩ : Event).name = "navigate-to-view" ∧
        ∃ s, (⟨"quit-requested", Payload.unit⟩ : Event).payload =
          Payload.str s) ∨
      ((⟨"quit-requested", Payload.unit⟩ : Event).name = "quit-requested" ∧
        (⟨"quit-requested", Payload.unit⟩ : Event).payload = Payload.unit) :=
  C7_emitted_events envAllOk appHidden (Input.menuEvent "quit")
    ⟨"quit-requested", Payload.unit⟩ (by decide)

end TheSystem
